import Mathlib

/-!
Verification development for the crowd-momentum simulation core declared in
`src/crowd_momentum_system.h`.  The repository ships only the header
(declarations); the method bodies are not part of `src/`, so every operation
below is modelled from the specification's description of that method, over a
shallow embedding in which C++ `float` is modelled as `ℚ` and `int` as `ℤ`.
-/

namespace CrowdMomentum

/-- The two sides of a match; used where the C++ code distinguishes the home
`Team` from the away `Team` (e.g. `MomentumMeter`'s two scalars). -/
inductive TeamSide where
  | home
  | away
deriving DecidableEq, Repr

/-- From `enum class EventType` in the header. -/
inductive EventType where
  | TOUCHDOWN
  | INTERCEPTION
  | SACK
  | FOURTH_DOWN_STOP
  | FUMBLE
  | FIELD_GOAL
  | PENALTY
  | SAFETY
  | TURNOVER
deriving DecidableEq, Repr

/-- From `enum class EffectType` in the header. -/
inductive EffectType where
  | REACTION_TIME_BOOST
  | ACCURACY_BOOST
  | BLOCKING_EFFICIENCY
  | SNAP_TIMING_PENALTY
  | FOCUS_REDUCTION
  | FALSE_START_INCREASE
deriving DecidableEq, Repr

/-- From `struct PlayerStats` in the header (all five `float` fields). -/
structure PlayerStats where
  speed : ℚ
  accuracy : ℚ
  strength : ℚ
  awareness : ℚ
  composure : ℚ
deriving DecidableEq, Repr

/-- Clamp `x` into the interval `[lo, hi]`, the saturating policy the spec
prescribes for out-of-range numeric inputs. -/
def clamp (lo hi x : ℚ) : ℚ := max lo (min x hi)

/-- From `class MomentumMeter`: two momentum scalars plus configuration. -/
structure MomentumMeter where
  home_momentum : ℚ
  away_momentum : ℚ
  momentum_threshold : ℚ
  momentum_decay_rate : ℚ
  max_momentum : ℚ
  min_momentum : ℚ
deriving DecidableEq, Repr

namespace MomentumMeter

/-- The neutral midpoint of the momentum range, the value decay pulls toward. -/
def neutral (m : MomentumMeter) : ℚ := (m.min_momentum + m.max_momentum) / 2

/-- Read one side's momentum, as `MomentumMeter::getMomentum`. -/
def getMomentum (m : MomentumMeter) : TeamSide → ℚ
  | .home => m.home_momentum
  | .away => m.away_momentum

/-- Modelled from the spec: `MomentumMeter::adjustMomentum` (body not in
`src/`) "clamps the team's momentum to [min, max] after adding delta". -/
def adjustMomentum (m : MomentumMeter) (side : TeamSide) (delta : ℚ) :
    MomentumMeter :=
  match side with
  | .home =>
    { m with home_momentum := clamp m.min_momentum m.max_momentum (m.home_momentum + delta) }
  | .away =>
    { m with away_momentum := clamp m.min_momentum m.max_momentum (m.away_momentum + delta) }

/-- Modelled from the spec: `MomentumMeter::setMomentum` (body not in `src/`)
"sets directly (same clamp)". -/
def setMomentum (m : MomentumMeter) (side : TeamSide) (value : ℚ) :
    MomentumMeter :=
  match side with
  | .home =>
    { m with home_momentum := clamp m.min_momentum m.max_momentum value }
  | .away =>
    { m with away_momentum := clamp m.min_momentum m.max_momentum value }

/-- One momentum value pulled toward `nl` by a nonnegative step `s`,
stopping at `nl` rather than overshooting. -/
def decayValue (nl s v : ℚ) : ℚ :=
  if nl < v then max (v - s) nl
  else if v < nl then min (v + s) nl
  else v

/-- Modelled from the spec: `MomentumMeter::decayMomentum` (body not in
`src/`) "pulls both teams' momentum toward the neutral midpoint at
`decay_rate * delta_time` per call; never overshoots past neutral in one
step larger than the remaining distance".  A negative `delta_time` is a
negative duration, which the spec's error-handling policy saturates, so the
step is floored at zero. -/
def decayMomentum (m : MomentumMeter) (delta_time : ℚ) : MomentumMeter :=
  let step := max (m.momentum_decay_rate * delta_time) 0
  { m with
    home_momentum := decayValue m.neutral step m.home_momentum
    away_momentum := decayValue m.neutral step m.away_momentum }

/-- Both momentum scalars lie within `[min_momentum, max_momentum]`. -/
def inBounds (m : MomentumMeter) : Prop :=
  m.min_momentum ≤ m.home_momentum ∧ m.home_momentum ≤ m.max_momentum ∧
  m.min_momentum ≤ m.away_momentum ∧ m.away_momentum ≤ m.max_momentum

instance (m : MomentumMeter) : Decidable m.inBounds := by
  unfold inBounds; infer_instance

end MomentumMeter

/-- A call into the `MomentumMeter` mutation interface. -/
inductive MeterOp where
  | adjust (side : TeamSide) (delta : ℚ)
  | set (side : TeamSide) (value : ℚ)
  | decay (delta_time : ℚ)
deriving DecidableEq, Repr

/-- Run one `MeterOp` against the meter. -/
def applyMeterOp (m : MomentumMeter) : MeterOp → MomentumMeter
  | .adjust side delta => m.adjustMomentum side delta
  | .set side value => m.setMomentum side value
  | .decay dt => m.decayMomentum dt

/-- Run a sequence of calls against the meter, left to right. -/
def applyMeterOps (m : MomentumMeter) (ops : List MeterOp) : MomentumMeter :=
  ops.foldl applyMeterOp m

theorem clamp_mem (lo hi x : ℚ) (h : lo ≤ hi) :
    lo ≤ clamp lo hi x ∧ clamp lo hi x ≤ hi := by
  unfold clamp
  constructor
  · exact le_max_left _ _
  · exact max_le h (min_le_right _ _)

theorem decayValue_between (nl s v : ℚ) (hs : 0 ≤ s) :
    min nl v ≤ MomentumMeter.decayValue nl s v ∧
    MomentumMeter.decayValue nl s v ≤ max nl v := by
  unfold MomentumMeter.decayValue
  split_ifs with h1 h2
  · constructor
    · exact le_trans (min_le_left _ _) (le_max_right _ _)
    · refine max_le (le_trans ?_ (le_max_right _ _)) (le_max_left _ _)
      linarith
  · constructor
    · refine le_min (le_trans (min_le_right _ _) ?_) (min_le_left _ _)
      linarith
    · exact le_trans (min_le_right _ _) (le_max_left _ _)
  · constructor
    · exact min_le_right _ _
    · exact le_max_right _ _

/-- From `class MomentumEffect`: a timed, team-targeted stat modifier. -/
structure MomentumEffect where
  effect_type : EffectType
  magnitude : ℚ
  duration : ℚ
  remaining_time : ℚ
  target_team : TeamSide
  is_positive_effect : Bool
deriving DecidableEq, Repr

namespace MomentumEffect

/-- Modelled from the spec: the `MomentumEffect` constructor (body not in
`src/`).  A negative duration is saturated to zero per the spec's
error-handling policy; `remaining_time` starts at the full duration. -/
def make (type : EffectType) (magnitude duration : ℚ) (team : TeamSide)
    (positive : Bool) : MomentumEffect :=
  { effect_type := type
    magnitude := magnitude
    duration := max duration 0
    remaining_time := max duration 0
    target_team := team
    is_positive_effect := positive }

/-- Modelled from the spec: `MomentumEffect::isActive` (body not in `src/`)
"becomes false exactly when `remaining_time <= 0`". -/
def isActive (e : MomentumEffect) : Bool := decide (0 < e.remaining_time)

/-- Modelled from the spec: `MomentumEffect::getEffectStrength` (body not in
`src/`) "returns `magnitude` scaled by `remaining_time / duration` (linear
fade-out)". -/
def getEffectStrength (e : MomentumEffect) : ℚ :=
  e.magnitude * (e.remaining_time / e.duration)

/-- Modelled from the spec: `MomentumEffect::update` (body not in `src/`)
"decrements `remaining_time`". -/
def update (e : MomentumEffect) (delta_time : ℚ) : MomentumEffect :=
  { e with remaining_time := e.remaining_time - delta_time }

end MomentumEffect

/-- Modelled from the spec: the fixed stat-to-modify table for the closed
`EffectType` enumeration (§9 of the spec prescribes an enum-indexed table;
the concrete column assignment is not given in `src/`, and no claim depends
on which stat a given effect kind modifies).  The signed strength of the
effect is added to the mapped attribute. -/
def applyEffectToStats (e : MomentumEffect) (s : PlayerStats) : PlayerStats :=
  let d := if e.is_positive_effect then e.getEffectStrength else -e.getEffectStrength
  match e.effect_type with
  | .REACTION_TIME_BOOST => { s with speed := s.speed + d }
  | .ACCURACY_BOOST => { s with accuracy := s.accuracy + d }
  | .BLOCKING_EFFICIENCY => { s with strength := s.strength + d }
  | .SNAP_TIMING_PENALTY => { s with speed := s.speed + d }
  | .FOCUS_REDUCTION => { s with awareness := s.awareness + d }
  | .FALSE_START_INCREASE => { s with composure := s.composure + d }

/-- From `class Player`: base stats, attached effects, immunity flag.
The C++ `Team*` back-reference is modelled as the player's `TeamSide`. -/
structure Player where
  player_id : String
  team : TeamSide
  base_stats : PlayerStats
  current_effects : List MomentumEffect
  composure_level : ℚ
  momentum_immune : Bool
deriving DecidableEq, Repr

namespace Player

/-- An attached effect counts for this player when it is still active and
targets the player's team. -/
def effectApplies (p : Player) (e : MomentumEffect) : Bool :=
  e.isActive && decide (e.target_team = p.team)

/-- Modelled from the spec: `Player::getModifiedStats` (body not in `src/`)
"folds `base_stats` with every active, non-expired effect whose target team
matches the player's team, skipping entirely if `momentum_immune`". -/
def getModifiedStats (p : Player) : PlayerStats :=
  if p.momentum_immune then p.base_stats
  else
    p.current_effects.foldl
      (fun s e => if p.effectApplies e then applyEffectToStats e s else s)
      p.base_stats

/-- The spec's wording of the same quantity: `base_stats` combined with all
currently-active, non-expired effects targeting the player's team.  Stated
independently of `getModifiedStats` so the two can be compared. -/
def specCombinedStats (p : Player) : PlayerStats :=
  (p.current_effects.filter p.effectApplies).foldl
    (fun s e => applyEffectToStats e s) p.base_stats

end Player

/-- From `class Coach` together with the owning team's
`composure_mode_active` flag, which `Coach::activateTeamComposure` sets
through its `Team*` back-reference. -/
structure CoachState where
  leadership_rating : ℤ
  composure_cooldown : ℚ
  cooldown_remaining : ℚ
  team_composure_mode_active : Bool
deriving DecidableEq, Repr

namespace CoachState

/-- Modelled from the spec: `Coach::canActivateComposure` (body not in
`src/`) — activation is permitted exactly when `cooldown_remaining <= 0`. -/
def canActivateComposure (c : CoachState) : Bool :=
  decide (c.cooldown_remaining ≤ 0)

/-- Modelled from the spec: `Coach::activateTeamComposure` (body not in
`src/`) "only succeeds if `cooldown_remaining <= 0`; on success it sets the
team's `composure_mode_active` flag and starts the cooldown timer
(`composure_cooldown` seconds)"; on cooldown it is a no-op. -/
def activateTeamComposure (c : CoachState) : CoachState :=
  if c.cooldown_remaining ≤ 0 then
    { c with
      team_composure_mode_active := true
      cooldown_remaining := c.composure_cooldown }
  else c

/-- Modelled from the spec: `Coach::updateCooldown` (body not in `src/`)
"decrements the remaining cooldown, floored at zero". -/
def updateCooldown (c : CoachState) (delta_time : ℚ) : CoachState :=
  { c with cooldown_remaining := max (c.cooldown_remaining - delta_time) 0 }

end CoachState

/-- From `class TeamComposureMode`: the standalone mitigation-window state
machine.  The `Coach*` back-reference is modelled as an optional coach id. -/
structure TeamComposureMode where
  is_active : Bool
  duration : ℚ
  remaining_time : ℚ
  effectiveness : ℚ
  cooldown_time : ℚ
  cooldown_remaining : ℚ
  activating_coach : Option String
deriving DecidableEq, Repr

namespace TeamComposureMode

/-- Modelled from the spec: the `TeamComposureMode` constructor (body not in
`src/`).  The header declares the default arguments
`duration = 30.0f, effectiveness = 0.7f`; the mode starts inactive with no
pending cooldown (the constructor body gives `cooldown_time` no documented
starting value, and no claim depends on it, so it starts at zero). -/
def make (duration effectiveness : ℚ) : TeamComposureMode :=
  { is_active := false
    duration := duration
    remaining_time := 0
    effectiveness := effectiveness
    cooldown_time := 0
    cooldown_remaining := 0
    activating_coach := none }

/-- The default-constructed mode, using the header's default arguments
`TeamComposureMode(float duration = 30.0f, float effectiveness = 0.7f)`. -/
def mkDefault : TeamComposureMode := make 30 (7 / 10)

/-- Modelled from the spec: `TeamComposureMode::canActivate` (body not in
`src/`) — "activation only permitted when `canActivate()` holds", i.e. the
mode is not already active and not on cooldown. -/
def canActivate (m : TeamComposureMode) : Bool :=
  !m.is_active && decide (m.cooldown_remaining ≤ 0)

/-- Modelled from the spec: `TeamComposureMode::activate` (body not in
`src/`).  When permitted it opens the mitigation window for the full
duration and starts the cooldown timer; otherwise it is a no-op. -/
def activate (m : TeamComposureMode) (coach : String) : TeamComposureMode :=
  if m.canActivate then
    { m with
      is_active := true
      remaining_time := m.duration
      cooldown_remaining := m.cooldown_time
      activating_coach := some coach }
  else m

/-- Modelled from the spec: `TeamComposureMode::update` (body not in
`src/`).  While active the window timer runs down and the mode deactivates
at zero; while inactive the cooldown timer runs down, floored at zero. -/
def update (m : TeamComposureMode) (delta_time : ℚ) : TeamComposureMode :=
  if m.is_active then
    let r := m.remaining_time - delta_time
    if r ≤ 0 then { m with is_active := false, remaining_time := 0 }
    else { m with remaining_time := r }
  else { m with cooldown_remaining := max (m.cooldown_remaining - delta_time) 0 }

/-- Modelled from the spec: `TeamComposureMode::getMitigationFactor` (body
not in `src/`) — "while composure mode is active, effect magnitude applied
to that team's players is multiplied by `(1 - effectiveness)`", and the
mitigation "has zero effect once expired or on cooldown". -/
def getMitigationFactor (m : TeamComposureMode) : ℚ :=
  if m.is_active then 1 - m.effectiveness else 1

end TeamComposureMode

/-- The magnitude of an effect as evaluated for a team whose composure mode
is `m`: the mitigation is applied at the point of evaluation, as a factor on
the read magnitude, and the stored `MomentumEffect` is not changed. -/
def appliedMagnitude (m : TeamComposureMode) (e : MomentumEffect) : ℚ :=
  e.magnitude * m.getMitigationFactor

/-- From `class GameEvent`: an event record with a computed momentum
impact. -/
structure GameEvent where
  event_type : EventType
  team : TeamSide
  momentum_impact : ℚ
  timestamp : ℚ
  is_home_team_event : Bool
deriving DecidableEq, Repr

namespace GameEvent

/-- Modelled from the spec: in `CrowdMomentumSystem::processGameEvent` (body
not in `src/`) "the event's team receives positive momentum delta; the
opposing team receives a comparable negative delta": the delta applied to
the home side. -/
def homeDelta (e : GameEvent) : ℚ :=
  if e.is_home_team_event then e.momentum_impact else -e.momentum_impact

/-- Modelled from the spec: the delta applied to the away side by
`CrowdMomentumSystem::processGameEvent` — "the symmetric negative to the
opponent". -/
def awayDelta (e : GameEvent) : ℚ :=
  if e.is_home_team_event then -e.momentum_impact else e.momentum_impact

end GameEvent

/-- Modelled from the spec: the meter part of
`CrowdMomentumSystem::processGameEvent` (body not in `src/`) — "apply
impact to MomentumMeter for the event's team and the symmetric negative to
the opponent". -/
def processGameEvent (m : MomentumMeter) (e : GameEvent) : MomentumMeter :=
  (m.adjustMomentum .home e.homeDelta).adjustMomentum .away e.awayDelta

/-- From `class CrowdSection`: a slice of attendance affiliated with one
team (`none` = neutral section).  C++ `int` fields are `ℤ`. -/
structure CrowdSection where
  section_id : String
  team_affiliation : Option TeamSide
  capacity : ℤ
  current_attendance : ℤ
  current_enthusiasm : ℚ
  noise_contribution : ℚ
deriving DecidableEq, Repr

namespace CrowdSection

/-- Modelled from the spec: the `CrowdSection` constructor (body not in
`src/`).  A negative capacity is saturated to zero per the spec's
error-handling policy; the section starts empty and quiet. -/
def make (id : String) (team : Option TeamSide) (capacity : ℤ) :
    CrowdSection :=
  { section_id := id
    team_affiliation := team
    capacity := max capacity 0
    current_attendance := 0
    current_enthusiasm := 0
    noise_contribution := 0 }

/-- Modelled from the spec: `CrowdSection::cheer` (body not in `src/`)
increases this section's enthusiasm and noise contribution by the given
intensity. -/
def cheer (s : CrowdSection) (intensity : ℚ) : CrowdSection :=
  { s with
    current_enthusiasm := s.current_enthusiasm + intensity
    noise_contribution := s.noise_contribution + intensity }

/-- Modelled from the spec: `CrowdSection::boo` (body not in `src/`)
registers boo intensity: noise rises by the intensity while enthusiasm
falls by it. -/
def boo (s : CrowdSection) (intensity : ℚ) : CrowdSection :=
  { s with
    current_enthusiasm := s.current_enthusiasm - intensity
    noise_contribution := s.noise_contribution + intensity }

/-- Modelled from the spec: `CrowdSection::reactToPlay` (body not in
`src/`) — "each section's `reactToPlay` increases `cheer` intensity if its
affiliation matches the event's team, `boo` intensity otherwise (neutral
sections react at reduced intensity)". -/
def reactToPlay (s : CrowdSection) (e : GameEvent) : CrowdSection :=
  match s.team_affiliation with
  | none => s.cheer (1 / 2)
  | some t => if t = e.team then s.cheer 1 else s.boo 1

/-- Modelled from the spec: `CrowdSection::setAttendance` (body not in
`src/`) — out-of-range attendance (beyond capacity, or negative) is
clamped/saturated rather than rejected, so `attendance ≤ capacity` holds
afterwards. -/
def setAttendance (s : CrowdSection) (attendance : ℤ) : CrowdSection :=
  { s with current_attendance := max 0 (min attendance s.capacity) }

/-- This section's weighted noise term in `Crowd::generateNoise`: its
contribution weighted by `current_attendance / capacity`. -/
def weightedNoise (s : CrowdSection) : ℚ :=
  s.noise_contribution * ((s.current_attendance : ℚ) / (s.capacity : ℚ))

end CrowdSection

/-- From `class Crowd`: aggregates the venue's `CrowdSection`s. -/
structure Crowd where
  noise_level : ℚ
  enthusiasm : ℚ
  crowd_sections : List CrowdSection
  base_noise_level : ℚ
  max_noise_level : ℚ
deriving DecidableEq, Repr

namespace Crowd

/-- Modelled from the spec: the `Crowd` constructor (body not in `src/`).
The header declares `Crowd(Stadium* stadium, int num_sections = 8)`; it
creates that many (initially neutral, empty) sections. -/
def make (num_sections : ℕ) (section_capacity : ℤ) : Crowd :=
  { noise_level := 0
    enthusiasm := 0
    crowd_sections :=
      (List.range num_sections).map
        (fun i => CrowdSection.make (toString i) none section_capacity)
    base_noise_level := 0
    max_noise_level := 100 }

/-- Modelled from the spec: `Crowd::reactToEvent` (body not in `src/`)
"dispatches to every section". -/
def reactToEvent (c : Crowd) (e : GameEvent) : Crowd :=
  { c with crowd_sections := c.crowd_sections.map (fun s => s.reactToPlay e) }

/-- Modelled from the spec: `Crowd::generateNoise` (body not in `src/`)
"aggregates all sections' noise contributions, weighted by each section's
`current_attendance / capacity`, into the crowd's overall `noise_level`,
clamped to `[0, max_noise_level]`". -/
def generateNoise (c : Crowd) : Crowd :=
  { c with
    noise_level :=
      clamp 0 c.max_noise_level
        (c.base_noise_level +
          (c.crowd_sections.map CrowdSection.weightedNoise).sum) }

/-- Modelled from the spec: `Crowd::updateEnthusiasm` (body not in `src/`)
adjusts the running (bounded) enthusiasm value. -/
def updateEnthusiasm (c : Crowd) (adjustment : ℚ) : Crowd :=
  { c with enthusiasm := clamp 0 100 (c.enthusiasm + adjustment) }

/-- Modelled from the spec: `Crowd::resetCrowd` (body not in `src/`)
returns noise and enthusiasm to their base values. -/
def resetCrowd (c : Crowd) : Crowd :=
  { c with noise_level := c.base_noise_level, enthusiasm := 0 }

/-- From `Crowd::setBaseNoiseLevel`. -/
def setBaseNoiseLevel (c : Crowd) (level : ℚ) : Crowd :=
  { c with base_noise_level := level }

/-- From `Crowd::setMaxNoiseLevel`. -/
def setMaxNoiseLevel (c : Crowd) (level : ℚ) : Crowd :=
  { c with max_noise_level := level }

/-- Modelled from the spec: `Crowd::addCrowdSection` (body not in `src/`).
The header declares this public method; it appends one more section with
the given affiliation and capacity. -/
def addCrowdSection (c : Crowd) (team : Option TeamSide) (capacity : ℤ) :
    Crowd :=
  { c with
    crowd_sections :=
      c.crowd_sections ++
        [CrowdSection.make (toString c.crowd_sections.length) team capacity] }

end Crowd

/-- A call into the `Crowd` mutation interface. -/
inductive CrowdOp where
  | reactToEvent (e : GameEvent)
  | generateNoise
  | updateEnthusiasm (adjustment : ℚ)
  | resetCrowd
  | setBaseNoiseLevel (level : ℚ)
  | setMaxNoiseLevel (level : ℚ)
  | addCrowdSection (team : Option TeamSide) (capacity : ℤ)
deriving DecidableEq, Repr

/-- Run one `CrowdOp` against the crowd. -/
def applyCrowdOp (c : Crowd) : CrowdOp → Crowd
  | .reactToEvent e => c.reactToEvent e
  | .generateNoise => c.generateNoise
  | .updateEnthusiasm a => c.updateEnthusiasm a
  | .resetCrowd => c.resetCrowd
  | .setBaseNoiseLevel l => c.setBaseNoiseLevel l
  | .setMaxNoiseLevel l => c.setMaxNoiseLevel l
  | .addCrowdSection t cap => c.addCrowdSection t cap

/-- Does this operation add a crowd section?  Only
`Crowd::addCrowdSection` does. -/
def CrowdOp.addsSection : CrowdOp → Bool
  | .addCrowdSection _ _ => true
  | _ => false

/-! ### Helper lemmas -/

theorem decayValue_mem (lo hi nl s v : ℚ) (hs : 0 ≤ s) (hnl1 : lo ≤ nl)
    (hnl2 : nl ≤ hi) (hv1 : lo ≤ v) (hv2 : v ≤ hi) :
    lo ≤ MomentumMeter.decayValue nl s v ∧
    MomentumMeter.decayValue nl s v ≤ hi := by
  obtain ⟨h1, h2⟩ := decayValue_between nl s v hs
  exact ⟨le_trans (le_min hnl1 hv1) h1, le_trans h2 (max_le hnl2 hv2)⟩

theorem applyMeterOp_min_max (m : MomentumMeter) (op : MeterOp) :
    (applyMeterOp m op).min_momentum = m.min_momentum ∧
    (applyMeterOp m op).max_momentum = m.max_momentum := by
  cases op with
  | adjust side delta => cases side <;> exact ⟨rfl, rfl⟩
  | set side value => cases side <;> exact ⟨rfl, rfl⟩
  | decay dt => exact ⟨rfl, rfl⟩

theorem neutral_mem (m : MomentumMeter)
    (hmm : m.min_momentum ≤ m.max_momentum) :
    m.min_momentum ≤ m.neutral ∧ m.neutral ≤ m.max_momentum := by
  unfold MomentumMeter.neutral
  constructor <;> linarith

theorem applyMeterOp_inBounds (m : MomentumMeter) (op : MeterOp)
    (hmm : m.min_momentum ≤ m.max_momentum) (h : m.inBounds) :
    (applyMeterOp m op).inBounds := by
  obtain ⟨h1, h2, h3, h4⟩ := h
  obtain ⟨hn1, hn2⟩ := neutral_mem m hmm
  cases op with
  | adjust side delta =>
    cases side with
    | home => exact ⟨(clamp_mem _ _ _ hmm).1, (clamp_mem _ _ _ hmm).2, h3, h4⟩
    | away => exact ⟨h1, h2, (clamp_mem _ _ _ hmm).1, (clamp_mem _ _ _ hmm).2⟩
  | set side value =>
    cases side with
    | home => exact ⟨(clamp_mem _ _ _ hmm).1, (clamp_mem _ _ _ hmm).2, h3, h4⟩
    | away => exact ⟨h1, h2, (clamp_mem _ _ _ hmm).1, (clamp_mem _ _ _ hmm).2⟩
  | decay dt =>
    have hs : (0:ℚ) ≤ max (m.momentum_decay_rate * dt) 0 := le_max_right _ _
    obtain ⟨ha1, ha2⟩ := decayValue_mem m.min_momentum m.max_momentum m.neutral
      (max (m.momentum_decay_rate * dt) 0) m.home_momentum hs hn1 hn2 h1 h2
    obtain ⟨hb1, hb2⟩ := decayValue_mem m.min_momentum m.max_momentum m.neutral
      (max (m.momentum_decay_rate * dt) 0) m.away_momentum hs hn1 hn2 h3 h4
    exact ⟨ha1, ha2, hb1, hb2⟩

theorem foldl_if_eq_foldl_filter {α β : Type} (p : α → Bool) (f : β → α → β)
    (l : List α) (init : β) :
    l.foldl (fun s e => if p e then f s e else s) init =
      (l.filter p).foldl f init := by
  induction l generalizing init with
  | nil => rfl
  | cons hd tl ih =>
    cases hp : p hd with
    | true => simp [List.filter_cons, hp, ih]
    | false => simp [List.filter_cons, hp, ih]

theorem decayValue_dist (nl s v : ℚ) (hs : 0 ≤ s) :
    |MomentumMeter.decayValue nl s v - nl| = max (|v - nl| - s) 0 := by
  unfold MomentumMeter.decayValue
  rcases lt_trichotomy nl v with h | h | h
  · rw [if_pos h, abs_of_pos (sub_pos.mpr h)]
    rcases le_total (v - s) nl with hc | hc
    · rw [max_eq_right hc, sub_self, abs_zero,
        max_eq_right (by linarith : v - nl - s ≤ 0)]
    · rw [max_eq_left hc, abs_of_nonneg (by linarith : (0:ℚ) ≤ v - s - nl),
        max_eq_left (by linarith : (0:ℚ) ≤ v - nl - s)]
      ring
  · subst h
    simp only [lt_self_iff_false, if_false, sub_self, abs_zero, zero_sub]
    rw [max_eq_right (by linarith : -s ≤ (0:ℚ))]
  · rw [if_neg (by linarith : ¬ nl < v), if_pos h,
      abs_of_neg (sub_neg.mpr h)]
    rcases le_total nl (v + s) with hc | hc
    · rw [min_eq_right hc, sub_self, abs_zero,
        max_eq_right (by linarith : -(v - nl) - s ≤ 0)]
    · rw [min_eq_left hc, abs_of_nonpos (by linarith : v + s - nl ≤ 0),
        max_eq_left (by linarith : (0:ℚ) ≤ -(v - nl) - s)]
      ring

theorem decayMomentum_home (m : MomentumMeter) (dt : ℚ) :
    (m.decayMomentum dt).home_momentum =
      MomentumMeter.decayValue m.neutral
        (max (m.momentum_decay_rate * dt) 0) m.home_momentum := rfl

theorem decayMomentum_away (m : MomentumMeter) (dt : ℚ) :
    (m.decayMomentum dt).away_momentum =
      MomentumMeter.decayValue m.neutral
        (max (m.momentum_decay_rate * dt) 0) m.away_momentum := rfl

/-! ### Claim theorems -/

/-- C1: for every sequence of calls to `MomentumMeter::adjustMomentum`,
`MomentumMeter::setMomentum` and `MomentumMeter::decayMomentum`, with
arbitrary (including out-of-range) deltas and values, both `home_momentum`
and `away_momentum` remain within `[min_momentum, max_momentum]` after every
call.  The sequence `ops` ranges over all call sequences, so every prefix —
i.e. the state after every call — is covered. -/
theorem momentum_stays_in_bounds (m : MomentumMeter) (ops : List MeterOp)
    (hmm : m.min_momentum ≤ m.max_momentum) (h : m.inBounds) :
    (applyMeterOps m ops).inBounds := by
  induction ops generalizing m with
  | nil => exact h
  | cons op rest ih =>
    have hc := applyMeterOp_min_max m op
    exact ih (applyMeterOp m op) (by rw [hc.1, hc.2]; exact hmm)
      (applyMeterOp_inBounds m op hmm h)

/-- Witness for C1 at a concrete meter and call sequence. -/
theorem momentum_stays_in_bounds_witness :
    ((MomentumMeter.mk 20 (-30) 50 (1/10) 100 (-100)).min_momentum ≤
        (MomentumMeter.mk 20 (-30) 50 (1/10) 100 (-100)).max_momentum) ∧
    (MomentumMeter.mk 20 (-30) 50 (1/10) 100 (-100)).inBounds ∧
    (applyMeterOps (MomentumMeter.mk 20 (-30) 50 (1/10) 100 (-100))
      [.adjust .home 500, .set .away (-1000), .decay 3,
       .adjust .away (-7), .decay (-2)]).inBounds :=
  ⟨by norm_num, by decide,
    momentum_stays_in_bounds _ _ (by norm_num) (by decide)⟩

/-- C2: for every `GameEvent` processed by
`CrowdMomentumSystem::processGameEvent`, the momentum delta applied to the
home team is the negation of the momentum delta applied to the away team,
and those two deltas are exactly what `processGameEvent` feeds into the
meter. -/
theorem processGameEvent_zero_sum (e : GameEvent) :
    e.homeDelta = -e.awayDelta ∧
    ∀ m : MomentumMeter, processGameEvent m e =
      (m.adjustMomentum .home e.homeDelta).adjustMomentum .away (-e.homeDelta) := by
  have hz : e.homeDelta = -e.awayDelta := by
    unfold GameEvent.homeDelta GameEvent.awayDelta
    split_ifs <;> ring
  refine ⟨hz, fun m => ?_⟩
  unfold processGameEvent
  rw [show e.awayDelta = -e.homeDelta by rw [hz]; ring]

/-- C3: `Player::getModifiedStats` equals `base_stats` combined with all
currently-active, non-expired effects whose target team matches the
player's team (the filter-based `specCombinedStats`), and for a
`momentum_immune` player it equals `base_stats` regardless of the attached
effects. -/
theorem getModifiedStats_spec (p : Player) :
    (p.momentum_immune = false → p.getModifiedStats = p.specCombinedStats) ∧
    (p.momentum_immune = true → p.getModifiedStats = p.base_stats) := by
  constructor
  · intro h
    unfold Player.getModifiedStats Player.specCombinedStats
    rw [if_neg (by simp [h])]
    exact foldl_if_eq_foldl_filter _ _ _ _
  · intro h
    unfold Player.getModifiedStats
    rw [if_pos (by simp [h])]

/-- Witness for C3: a non-immune and an immune player, each with an active
effect attached. -/
theorem getModifiedStats_spec_witness :
    (Player.mk "p1" .home ⟨10, 10, 10, 10, 10⟩
        [⟨.FOCUS_REDUCTION, 4, 10, 5, .home, false⟩] 50 false).getModifiedStats =
      (Player.mk "p1" .home ⟨10, 10, 10, 10, 10⟩
        [⟨.FOCUS_REDUCTION, 4, 10, 5, .home, false⟩] 50 false).specCombinedStats ∧
    (Player.mk "p2" .home ⟨10, 10, 10, 10, 10⟩
        [⟨.FOCUS_REDUCTION, 4, 10, 5, .home, false⟩] 50 true).getModifiedStats =
      ⟨10, 10, 10, 10, 10⟩ :=
  ⟨(getModifiedStats_spec _).1 rfl, (getModifiedStats_spec _).2 rfl⟩

/-- C4: for every `MomentumEffect` with positive total duration,
`getEffectStrength` is `magnitude * (remaining_time / duration)` — the
linear fade-out, equal to the full `magnitude` when the effect is fresh and
rescaled linearly by `update` — and `isActive` is `false` exactly when
`remaining_time ≤ 0`. -/
theorem effect_strength_linear (e : MomentumEffect) (hd : 0 < e.duration) :
    e.getEffectStrength = e.magnitude * (e.remaining_time / e.duration) ∧
    (e.isActive = false ↔ e.remaining_time ≤ 0) ∧
    (e.remaining_time = e.duration → e.getEffectStrength = e.magnitude) ∧
    ∀ t : ℚ, (e.update t).getEffectStrength =
      e.magnitude * ((e.remaining_time - t) / e.duration) := by
  refine ⟨rfl, ?_, ?_, fun t => rfl⟩
  · simp [MomentumEffect.isActive, not_lt]
  · intro h
    unfold MomentumEffect.getEffectStrength
    rw [h, div_self (ne_of_gt hd), mul_one]

/-- Witness for C4 at a concrete effect of duration 10. -/
theorem effect_strength_linear_witness :
    (0 : ℚ) < (MomentumEffect.mk .ACCURACY_BOOST 6 10 10 .away true).duration ∧
    ((MomentumEffect.mk .ACCURACY_BOOST 6 10 10 .away true).isActive = false ↔
      (MomentumEffect.mk .ACCURACY_BOOST 6 10 10 .away true).remaining_time ≤ 0) :=
  ⟨by norm_num,
    (effect_strength_linear (MomentumEffect.mk .ACCURACY_BOOST 6 10 10 .away true)
      (by norm_num)).2.1⟩

/-- C5: while a team's composure mode is active, the effect magnitude
applied to that team's players at evaluation time is
`magnitude * (1 - effectiveness)`; the stored `MomentumEffect` is not
mutated (`appliedMagnitude` reads `e` and returns a factor on it, leaving
`e` itself unchanged); once the mode is no longer active — expired or
merely on cooldown — the applied magnitude is the unreduced `magnitude`,
including immediately after an `update` that runs the window down. -/
theorem composure_mitigation (m : TeamComposureMode) (e : MomentumEffect)
    (dt : ℚ) :
    (m.is_active = true →
      appliedMagnitude m e = e.magnitude * (1 - m.effectiveness)) ∧
    (m.is_active = false → appliedMagnitude m e = e.magnitude) ∧
    (m.is_active = true → m.remaining_time ≤ dt →
      (m.update dt).is_active = false ∧
      appliedMagnitude (m.update dt) e = e.magnitude) := by
  refine ⟨?_, ?_, ?_⟩
  · intro h
    simp [appliedMagnitude, TeamComposureMode.getMitigationFactor, h]
  · intro h
    simp [appliedMagnitude, TeamComposureMode.getMitigationFactor, h]
  · intro h hr
    have hle : m.remaining_time - dt ≤ 0 := by linarith
    constructor
    · simp [TeamComposureMode.update, h, hle]
    · simp [TeamComposureMode.update, h, hle, appliedMagnitude,
        TeamComposureMode.getMitigationFactor]

/-- Witness for C5: an active mode mitigates, an inactive (on-cooldown) mode
does not, and expiry by `update` removes the mitigation. -/
theorem composure_mitigation_witness :
    appliedMagnitude (TeamComposureMode.mk true 30 10 (7/10) 60 60 (some "c"))
        ⟨.FOCUS_REDUCTION, 8, 20, 20, .away, false⟩ = 8 * (1 - 7/10) ∧
    appliedMagnitude (TeamComposureMode.mk false 30 0 (7/10) 60 45 (some "c"))
        ⟨.FOCUS_REDUCTION, 8, 20, 20, .away, false⟩ = 8 ∧
    appliedMagnitude
        ((TeamComposureMode.mk true 30 10 (7/10) 60 60 (some "c")).update 10)
        ⟨.FOCUS_REDUCTION, 8, 20, 20, .away, false⟩ = 8 :=
  ⟨(composure_mitigation _ _ 0).1 rfl,
    (composure_mitigation _ _ 0).2.1 rfl,
    ((composure_mitigation _ _ 10).2.2 rfl (by norm_num)).2⟩

/-- C6: `Coach::activateTeamComposure` succeeds exactly when
`cooldown_remaining ≤ 0`; on success it sets the team's
`composure_mode_active` flag and starts the cooldown timer at
`composure_cooldown`; an attempt while `cooldown_remaining > 0` leaves the
whole state unchanged. -/
theorem activateTeamComposure_spec (c : CoachState) :
    (c.cooldown_remaining ≤ 0 →
      c.activateTeamComposure.team_composure_mode_active = true ∧
      c.activateTeamComposure.cooldown_remaining = c.composure_cooldown) ∧
    (0 < c.cooldown_remaining → c.activateTeamComposure = c) := by
  constructor
  · intro h
    constructor <;> simp [CoachState.activateTeamComposure, h]
  · intro h
    unfold CoachState.activateTeamComposure
    rw [if_neg (not_le.mpr h)]

/-- Witness for C6: an off-cooldown coach succeeds, an on-cooldown coach is
a no-op. -/
theorem activateTeamComposure_spec_witness :
    ((CoachState.mk 80 120 0 false).activateTeamComposure.team_composure_mode_active = true ∧
      (CoachState.mk 80 120 0 false).activateTeamComposure.cooldown_remaining = 120) ∧
    (CoachState.mk 80 120 45 false).activateTeamComposure = CoachState.mk 80 120 45 false :=
  ⟨(activateTeamComposure_spec (CoachState.mk 80 120 0 false)).1 (by norm_num),
    (activateTeamComposure_spec (CoachState.mk 80 120 45 false)).2 (by norm_num)⟩

/-- A concrete meter (neutral 50, home momentum 60) exhibiting the
`delta_time = 0` edge case of the decay claim. -/
def meterAt60 : MomentumMeter := ⟨60, 0, 50, 1/10, 100, 0⟩

/-- C7 counterexample: a `decayMomentum` call with `delta_time = 0` on a
meter whose home momentum is away from neutral leaves the distance to
neutral unchanged, so the claim's unconditional "strictly reducing the
distance when it is nonzero" on every call fails for that call. -/
theorem decayMomentum_zero_step_not_strict :
    meterAt60.home_momentum ≠ meterAt60.neutral ∧
    ¬ |(meterAt60.decayMomentum 0).home_momentum - meterAt60.neutral| <
        |meterAt60.home_momentum - meterAt60.neutral| := by
  have hneutral : meterAt60.neutral = 50 := by
    norm_num [meterAt60, MomentumMeter.neutral]
  have hhome : meterAt60.home_momentum = 60 := rfl
  have hstep : max (meterAt60.momentum_decay_rate * 0) 0 = 0 := by
    norm_num [meterAt60]
  have hdv : MomentumMeter.decayValue 50 0 (60:ℚ) = 60 := by
    unfold MomentumMeter.decayValue
    rw [if_pos (by norm_num : (50:ℚ) < 60), sub_zero,
      max_eq_left (by norm_num : (50:ℚ) ≤ 60)]
  constructor
  · rw [hneutral, hhome]; norm_num
  · rw [decayMomentum_home, hneutral, hhome, hstep, hdv]
    exact lt_irrefl _

/-- C7 (amended): every `decayMomentum(delta_time)` call moves each team's
momentum toward the neutral midpoint by exactly the step
`decay_rate * delta_time` (saturated below at zero, and clipped at the
remaining distance), strictly reduces the distance `|momentum - neutral|`
whenever that distance is nonzero and `decay_rate * delta_time > 0`, and
never moves a momentum value past neutral in a single step — the new value
always stays between the old value and neutral. -/
theorem decayMomentum_toward_neutral (m : MomentumMeter) (dt : ℚ) :
    (|(m.decayMomentum dt).home_momentum - m.neutral| =
        max (|m.home_momentum - m.neutral| - max (m.momentum_decay_rate * dt) 0) 0 ∧
      |(m.decayMomentum dt).away_momentum - m.neutral| =
        max (|m.away_momentum - m.neutral| - max (m.momentum_decay_rate * dt) 0) 0) ∧
    (0 < m.momentum_decay_rate * dt →
      (m.home_momentum ≠ m.neutral →
        |(m.decayMomentum dt).home_momentum - m.neutral| <
          |m.home_momentum - m.neutral|) ∧
      (m.away_momentum ≠ m.neutral →
        |(m.decayMomentum dt).away_momentum - m.neutral| <
          |m.away_momentum - m.neutral|)) ∧
    (min m.neutral m.home_momentum ≤ (m.decayMomentum dt).home_momentum ∧
      (m.decayMomentum dt).home_momentum ≤ max m.neutral m.home_momentum ∧
      min m.neutral m.away_momentum ≤ (m.decayMomentum dt).away_momentum ∧
      (m.decayMomentum dt).away_momentum ≤ max m.neutral m.away_momentum) := by
  have hs : (0:ℚ) ≤ max (m.momentum_decay_rate * dt) 0 := le_max_right _ _
  refine ⟨⟨?_, ?_⟩, ?_, ?_⟩
  · rw [decayMomentum_home]
    exact decayValue_dist _ _ _ hs
  · rw [decayMomentum_away]
    exact decayValue_dist _ _ _ hs
  · intro hpos
    have hs' : 0 < max (m.momentum_decay_rate * dt) 0 :=
      lt_max_iff.mpr (Or.inl hpos)
    constructor
    · intro hne
      rw [decayMomentum_home, decayValue_dist _ _ _ hs]
      have hdp : 0 < |m.home_momentum - m.neutral| :=
        abs_pos.mpr (sub_ne_zero.mpr hne)
      exact max_lt (by linarith) hdp
    · intro hne
      rw [decayMomentum_away, decayValue_dist _ _ _ hs]
      have hdp : 0 < |m.away_momentum - m.neutral| :=
        abs_pos.mpr (sub_ne_zero.mpr hne)
      exact max_lt (by linarith) hdp
  · rw [decayMomentum_home, decayMomentum_away]
    obtain ⟨ha1, ha2⟩ := decayValue_between m.neutral
      (max (m.momentum_decay_rate * dt) 0) m.home_momentum hs
    obtain ⟨hb1, hb2⟩ := decayValue_between m.neutral
      (max (m.momentum_decay_rate * dt) 0) m.away_momentum hs
    exact ⟨ha1, ha2, hb1, hb2⟩

/-- A concrete meter (neutral 50, home momentum 80, decay rate 2) used to
instantiate the amended decay claim. -/
def meterAt80 : MomentumMeter := ⟨80, 10, 50, 2, 100, 0⟩

/-- Witness for C7 (amended) at a concrete meter with positive step and home
momentum away from neutral. -/
theorem decayMomentum_toward_neutral_witness :
    0 < meterAt80.momentum_decay_rate * 3 ∧
    meterAt80.home_momentum ≠ meterAt80.neutral ∧
    |(meterAt80.decayMomentum 3).home_momentum - meterAt80.neutral| <
      |meterAt80.home_momentum - meterAt80.neutral| :=
  ⟨by norm_num [meterAt80],
    by norm_num [meterAt80, MomentumMeter.neutral],
    ((decayMomentum_toward_neutral meterAt80 3).2.1
        (by norm_num [meterAt80])).1
      (by norm_num [meterAt80, MomentumMeter.neutral])⟩

/-- C8: out-of-range numeric inputs at the public interface saturate instead
of failing: `CrowdSection::setAttendance` clamps into `[0, capacity]` (so
`attendance ≤ capacity` holds afterwards), `MomentumMeter::adjustMomentum`
clamps into `[min_momentum, max_momentum]`, and a `MomentumEffect`
constructed with a negative duration saturates it to a nonnegative one. -/
theorem out_of_range_inputs_clamped (s : CrowdSection) (a : ℤ)
    (m : MomentumMeter) (side : TeamSide) (d : ℚ) (ty : EffectType)
    (mag dur : ℚ) (team : TeamSide) (pos : Bool)
    (hcap : 0 ≤ s.capacity) (hmm : m.min_momentum ≤ m.max_momentum) :
    (0 ≤ (s.setAttendance a).current_attendance ∧
      (s.setAttendance a).current_attendance ≤ (s.setAttendance a).capacity) ∧
    (m.min_momentum ≤ ((m.adjustMomentum side d).getMomentum side) ∧
      ((m.adjustMomentum side d).getMomentum side) ≤ m.max_momentum) ∧
    0 ≤ (MomentumEffect.make ty mag dur team pos).duration := by
  refine ⟨⟨le_max_left _ _, ?_⟩, ?_, le_max_right _ _⟩
  · exact max_le hcap (min_le_right _ _)
  · cases side with
    | home => exact clamp_mem _ _ _ hmm
    | away => exact clamp_mem _ _ _ hmm

/-- Witness for C8: over-capacity attendance, an oversized momentum delta
and a negative duration, all at concrete values. -/
theorem out_of_range_inputs_clamped_witness :
    (0:ℤ) ≤ (CrowdSection.mk "s1" (some .home) 500 100 0 0).capacity ∧
    ((0:ℚ) ≤
      ((CrowdSection.mk "s1" (some .home) 500 100 0 0).setAttendance 9999).current_attendance ∧
      ((CrowdSection.mk "s1" (some .home) 500 100 0 0).setAttendance 9999).current_attendance ≤
        ((CrowdSection.mk "s1" (some .home) 500 100 0 0).setAttendance 9999).capacity) ∧
    0 ≤ (MomentumEffect.make .FOCUS_REDUCTION 5 (-3) .away false).duration := by
  refine ⟨by norm_num, ?_⟩
  have h := out_of_range_inputs_clamped (CrowdSection.mk "s1" (some .home) 500 100 0 0)
    9999 (MomentumMeter.mk 0 0 50 (1/10) 100 (-100)) .home 250 .FOCUS_REDUCTION
    5 (-3) .away false (by norm_num) (by norm_num)
  exact ⟨⟨by exact_mod_cast h.1.1, by exact_mod_cast h.1.2⟩, h.2.2⟩

/-- C9 counterexample: `Crowd::addCrowdSection` is a public operation that
appends a section, so a crowd constructed with 8 sections has 9 after one
call — the section count is not fixed for every operation sequence. -/
theorem crowd_section_count_not_fixed :
    (applyCrowdOp (Crowd.make 8 100) (CrowdOp.addCrowdSection none 50)).crowd_sections.length ≠
      (Crowd.make 8 100).crowd_sections.length := by
  decide

/-- C9 (amended): the number of `CrowdSection`s is set at construction and
changed only by `Crowd::addCrowdSection`, which appends exactly one
section; every other operation (`reactToEvent`, `generateNoise`,
`updateEnthusiasm`, `resetCrowd` and the noise-level setters) leaves the
section count unchanged. -/
theorem crowd_section_count_change (c : Crowd) (op : CrowdOp) :
    (applyCrowdOp c op).crowd_sections.length =
      if op.addsSection then c.crowd_sections.length + 1
      else c.crowd_sections.length := by
  cases op <;>
    simp [applyCrowdOp, CrowdOp.addsSection, Crowd.reactToEvent,
      Crowd.generateNoise, Crowd.updateEnthusiasm, Crowd.resetCrowd,
      Crowd.setBaseNoiseLevel, Crowd.setMaxNoiseLevel, Crowd.addCrowdSection]

/-- C10: a `TeamComposureMode` constructed with the header's default
arguments has duration 30 and effectiveness 0.7, so activating it opens a
30-second mitigation window during which an incoming magnitude is
multiplied by `1 - 0.7` — i.e. reduced by 70%. -/
theorem default_composure_mode :
    TeamComposureMode.mkDefault.duration = 30 ∧
    TeamComposureMode.mkDefault.effectiveness = 7 / 10 ∧
    (TeamComposureMode.mkDefault.activate "coach").is_active = true ∧
    (TeamComposureMode.mkDefault.activate "coach").remaining_time = 30 ∧
    appliedMagnitude (TeamComposureMode.mkDefault.activate "coach")
        ⟨.FOCUS_REDUCTION, 10, 20, 20, .away, false⟩ = 10 * (1 - 7 / 10) := by
  refine ⟨rfl, rfl, by decide, by decide, ?_⟩
  norm_num [appliedMagnitude, TeamComposureMode.getMitigationFactor,
    TeamComposureMode.activate, TeamComposureMode.canActivate,
    TeamComposureMode.mkDefault, TeamComposureMode.make]

end CrowdMomentum
